import Mathlib

/-!
Verification of the tool-augmented agent scripts in `src/agents/`
(`curr_conv_agent_no_func.py`, `smolaagents.py`, `agent1-search.py`).

The scripts are shallowly embedded: pure Python functions become Lean
functions; the HTTP world, the Python `eval` builtin and the LLM backend
become explicit function parameters; Python exceptions become explicit
`Except` error values.  Python `float` values are modelled as `Rat`
(no claim here depends on floating-point rounding).
-/

/-- Python `s.lower()` (ASCII model): lowercase every character. -/
def pyLower (s : String) : String :=
  ⟨s.data.map Char.toLower⟩

/-- Python `s.strip()`: drop leading and trailing whitespace. -/
def pyStrip (s : String) : String :=
  ⟨((s.data.dropWhile Char.isWhitespace).reverse.dropWhile
      Char.isWhitespace).reverse⟩

/-- A Python exception that is an instance of `Exception` (the class caught
by the scripts' `except Exception` handlers), identified by its type name
and its message (`str(e)`). -/
inductive PyExc where
  | exc (typeName : String) (msg : String)
deriving DecidableEq, Repr

/-- `str(e)` for an exception: its message. -/
def excMessage : PyExc → String
  | .exc _ msg => msg

/-- A JSON-like Python value, as produced by `resp.json()` or by `eval`:
numbers (modelled as rationals), strings, booleans, lists, dicts with
string keys, and `None`. -/
inductive Json where
  | num (q : Rat)
  | str (s : String)
  | bool (b : Bool)
  | arr (elems : List Json)
  | obj (fields : List (String × Json))
  | null

/-- Key lookup in the field list of a Python dict (last writer wins is
irrelevant here; first match returned). -/
def lookupField : List (String × Json) → String → Option Json
  | [], _ => none
  | (k, v) :: rest, key => if k = key then some v else lookupField rest key

/-- Python `data.get(key, dflt)`: only dicts have `.get`; any other value
raises `AttributeError`. -/
def dictGet (j : Json) (key : String) (dflt : Json) : Except PyExc Json :=
  match j with
  | .obj fields => .ok ((lookupField fields key).getD dflt)
  | _ => .error (.exc "AttributeError" ("object has no attribute " ++ "get"))

/-- Python `key in container` for a string key: dict key membership,
substring test on strings, element membership on lists; numbers, booleans
and `None` raise `TypeError`. -/
def pyContains (key : String) (j : Json) : Except PyExc Bool :=
  match j with
  | .obj fields => .ok (lookupField fields key).isSome
  | .str s => .ok ((s.splitOn key).length != 1)
  | .arr elems =>
    .ok (elems.any fun e => match e with | .str s => s == key | _ => false)
  | _ => .error (.exc "TypeError" "argument is not iterable")

/-- Python `container[key]` for a string key: dict indexing (`KeyError`
when absent); strings and lists require integer indices, so a string key
raises `TypeError`; other values are not subscriptable. -/
def pyIndexStr (j : Json) (key : String) : Except PyExc Json :=
  match j with
  | .obj fields =>
    match lookupField fields key with
    | some v => .ok v
    | none => .error (.exc "KeyError" key)
  | .str _ => .error (.exc "TypeError" "string indices must be integers")
  | .arr _ => .error (.exc "TypeError" "list indices must be integers")
  | _ => .error (.exc "TypeError" "object is not subscriptable")

/-- Decimal float-literal parsing for Python `float(str)`: optional sign,
integer part, optional fractional part.  (Exponent, `inf`/`nan` and
underscore forms are not modelled; no claim depends on them.) -/
def parsePyFloat (s : String) : Option Rat :=
  let t := pyStrip s
  let sign : Rat := if t.startsWith "-" then -1 else 1
  let u := if t.startsWith "-" || t.startsWith "+" then t.drop 1 else t
  match u.splitOn "." with
  | [ip] =>
    match ip.toNat? with
    | some n => some (sign * (n : Rat))
    | none => none
  | [ip, fp] =>
    if ip = "" && fp = "" then none
    else
      match (if ip = "" then some 0 else ip.toNat?),
            (if fp = "" then some 0 else fp.toNat?) with
      | some a, some b =>
        some (sign * ((a : Rat) + (b : Rat) / ((10 : Rat) ^ fp.length)))
      | _, _ => none
  | _ => none

/-- Python `float(x)`: numbers pass through, booleans become 0/1, strings
are parsed (raising `ValueError` on failure), and other values raise
`TypeError`. -/
def pyFloat (j : Json) : Except PyExc Rat :=
  match j with
  | .num q => .ok q
  | .bool b => .ok (if b then 1 else 0)
  | .str s =>
    match parsePyFloat s with
    | some q => .ok q
    | none => .error (.exc "ValueError" ("could not convert string to float: " ++ s))
  | _ => .error (.exc "TypeError" "float() argument must be a string or a real number")

/-- The error a tool surfaces to its caller: both `fetch_live_rate` and
`calculate` raise only `RuntimeError`. -/
inductive ToolError where
  | runtimeError (msg : String)
deriving DecidableEq, Repr

/-! ## fetch_live_rate (curr_conv_agent_no_func.py, lines 13-51) -/

/-- The state of one HTTP response: whether `raise_for_status()` passes,
and the result of `resp.json()` (which may itself raise). -/
structure HttpResponse where
  statusOk : Bool
  body : Except PyExc Json

/-- Outcome of `requests.get(url, timeout=5)`: either the call raises
(connection error, `Timeout` on expiry of the timeout, ...) or a response
object is returned. -/
inductive GetResult where
  | raised (e : PyExc)
  | resp (r : HttpResponse)

/-- The HTTP world: what each URL answers.  `fetch_live_rate` is modelled
relative to an arbitrary world. -/
abbrev HttpWorld := String → GetResult

/-- One HTTP request record: the URL and the `timeout=` argument passed to
`requests.get`. -/
structure HttpRequest where
  url : String
  timeout : Nat
deriving DecidableEq, Repr

/-- First endpoint URL template (jsdelivr CDN), from the `urls` list. -/
def jsdelivrUrl (base : String) : String :=
  "https://cdn.jsdelivr.net/npm/@fawazahmed0/currency-api@latest/v1/currencies/"
    ++ base ++ ".json"

/-- Second endpoint URL template (pages.dev fallback), from the `urls` list. -/
def pagesUrl (base : String) : String :=
  "https://latest.currency-api.pages.dev/v1/currencies/" ++ base ++ ".json"

/-- The `urls` list of `fetch_live_rate`, built from the lowercased source
currency. -/
def rateUrls (base : String) : List String :=
  [jsdelivrUrl base, pagesUrl base]

/-- The body of `fetch_live_rate`'s `try:` block for one URL.  `none`
means the iteration continues to the next URL: every exception raised
inside the block (`requests.get` raising — including `Timeout` —,
`raise_for_status`, `.json()`, `.get`, `in`, indexing, `float`) is caught
by `except Exception: continue`, and a missing target key falls through
the `if` without returning. -/
def tryFetchUrl (world : HttpWorld) (base target : String) (url : String) :
    Option Rat :=
  match world url with
  | .raised _ => none
  | .resp r =>
    if !r.statusOk then none
    else
      match r.body with
      | .error _ => none
      | .ok data =>
        match dictGet data base (.obj []) with
        | .error _ => none
        | .ok rates =>
          match pyContains target rates with
          | .error _ => none
          | .ok false => none
          | .ok true =>
            match pyIndexStr rates target with
            | .error _ => none
            | .ok v =>
              match pyFloat v with
              | .error _ => none
              | .ok q => some q

/-- The `for url in urls:` loop: return the first URL's rate that the
`try:` block produces. -/
def fetchAttempts (world : HttpWorld) (base target : String) :
    List String → Option Rat
  | [] => none
  | u :: rest =>
    match tryFetchUrl world base target u with
    | some q => some q
    | none => fetchAttempts world base target rest

/-- `fetch_live_rate(from_currency, to_currency)`: lowercase both codes,
try each endpoint in order, return the first rate found as a float, and
otherwise raise `RuntimeError` naming both currencies in their original
casing. -/
def fetch_live_rate (world : HttpWorld) (from_currency to_currency : String) :
    Except ToolError Rat :=
  let base := pyLower from_currency
  let target := pyLower to_currency
  match fetchAttempts world base target (rateUrls base) with
  | some q => .ok q
  | none =>
    .error (.runtimeError
      ("Failed to fetch exchange rate from " ++ from_currency ++ " to "
        ++ to_currency))

/-- The `requests.get(url, timeout=5)` calls a run of `fetch_live_rate`
issues: one per URL, in `urls` order, stopping after the first URL whose
`try:` block returns. -/
def requestsIssuedAux (world : HttpWorld) (base target : String) :
    List String → List HttpRequest
  | [] => []
  | u :: rest =>
    { url := u, timeout := 5 } ::
      match tryFetchUrl world base target u with
      | some _ => []
      | none => requestsIssuedAux world base target rest

/-- All HTTP requests issued by `fetch_live_rate world from_currency
to_currency`. -/
def requestsIssued (world : HttpWorld) (from_currency to_currency : String) :
    List HttpRequest :=
  requestsIssuedAux world (pyLower from_currency) (pyLower to_currency)
    (rateUrls (pyLower from_currency))

/-! ## calculate (curr_conv_agent_no_func.py, lines 54-73) -/

/-- The globals dict `{"__builtins__": {}}` passed to `eval`: the only
restriction the calculator places on evaluation. -/
def restrictedGlobals : List (String × Json) := [("__builtins__", .obj [])]

/-- Outcome of Python `eval`: a value, or a raised exception. -/
inductive EvalOutcome where
  | value (v : Json)
  | raised (e : PyExc)

/-- An evaluator for Python expressions: `eval(expression, globals)`.
`calculate` is modelled relative to an arbitrary evaluator, since `eval`
is a general-purpose interpreter external to the script. -/
abbrev Evaluator := String → List (String × Json) → EvalOutcome

/-- `calculate(expression)`: `float(eval(expression, {"__builtins__": {}}))`
inside `try:`, with every exception (from `eval` or from `float`) re-raised
as `RuntimeError(f"Calculation error: {e}")`. -/
def calculate (evalFn : Evaluator) (expression : String) : Except ToolError Rat :=
  match evalFn expression restrictedGlobals with
  | .raised e => .error (.runtimeError ("Calculation error: " ++ excMessage e))
  | .value v =>
    match pyFloat v with
    | .error e => .error (.runtimeError ("Calculation error: " ++ excMessage e))
    | .ok q => .ok q

/-! ## The reasoning loop (spec §4.2)

Modelled from the spec: the reasoning loop itself lives inside the
smolagents / langchain frameworks, not in this repository; only its
configuration (`create_agent`, `max_steps=10`) is source code here.  The
loop below follows §4.2 of the spec word for word: initialize the
transcript with the user message, then up to `maxSteps` times ask the
backend, parse its output into a tool call / terminal answer / malformed,
record entries and dispatch tool calls (tool failure recorded, not fatal),
and fail with `StepBudgetExceededError{lastTranscript}` when the budget is
exhausted. -/

/-- Arguments of a tool call: named string-valued fields. -/
abbrev ToolArgs := List (String × String)

/-- One entry of the transcript (spec §3, `TranscriptEntry`). -/
inductive TranscriptEntry where
  | userMessage (text : String)
  | modelUtterance (text : String) (requestedAction : Option (String × ToolArgs))
  | toolCall (toolName : String) (args : ToolArgs)
  | toolResult (toolName : String) (value : Except String String)

/-- The parse of one raw backend output (spec §4.2 step 2b). -/
inductive ParsedStep where
  | toolCallReq (name : String) (args : ToolArgs)
  | finalAnswer (text : String)
  | malformed

/-- Hard loop failures surfaced to the caller (spec §4.2 / §7). -/
inductive LoopError where
  | malformedModelOutput (transcript : List TranscriptEntry)
  | stepBudgetExceeded (lastTranscript : List TranscriptEntry)

/-- Result of `run` (spec §4.2): a final answer (with the transcript that
produced it) or a loop error. -/
inductive RunOutcome where
  | finalAnswer (text : String) (transcript : List TranscriptEntry)
  | failed (e : LoopError)

/-- The bounded loop of spec §4.2 step 2, recursing on the remaining step
budget: ask the backend for raw text, parse it; on a terminal answer
record the utterance and stop; on a tool call record the utterance, the
call and the dispatched result (success or error alike) and continue; when
the budget reaches zero fail with `StepBudgetExceededError`. -/
def runLoop (backend : List TranscriptEntry → String)
    (parse : String → ParsedStep)
    (dispatch : String → ToolArgs → Except String String) :
    Nat → List TranscriptEntry → RunOutcome
  | 0, t => .failed (.stepBudgetExceeded t)
  | n + 1, t =>
    let raw := backend t
    match parse raw with
    | .malformed => .failed (.malformedModelOutput t)
    | .finalAnswer ans => .finalAnswer ans (t ++ [.modelUtterance raw none])
    | .toolCallReq name args =>
      runLoop backend parse dispatch n
        (t ++ [.modelUtterance raw (some (name, args)),
               .toolCall name args,
               .toolResult name (dispatch name args)])

/-- `run(query, maxSteps)` (spec §4.2): initialize the transcript with
`UserMessage(query)` and run the bounded loop. -/
def run (backend : List TranscriptEntry → String)
    (parse : String → ParsedStep)
    (dispatch : String → ToolArgs → Except String String)
    (query : String) (maxSteps : Nat) : RunOutcome :=
  runLoop backend parse dispatch maxSteps [.userMessage query]

/-- The number of model turns (backend invocations) `runLoop` performs,
following the same recursion as `runLoop`. -/
def runLoopTurns (backend : List TranscriptEntry → String)
    (parse : String → ParsedStep)
    (dispatch : String → ToolArgs → Except String String) :
    Nat → List TranscriptEntry → Nat
  | 0, _ => 0
  | n + 1, t =>
    match parse (backend t) with
    | .malformed => 1
    | .finalAnswer _ => 1
    | .toolCallReq name args =>
      1 + runLoopTurns backend parse dispatch n
        (t ++ [.modelUtterance (backend t) (some (name, args)),
               .toolCall name args,
               .toolResult name (dispatch name args)])

/-- The number of model turns a `run` performs. -/
def runTurns (backend : List TranscriptEntry → String)
    (parse : String → ParsedStep)
    (dispatch : String → ToolArgs → Except String String)
    (query : String) (maxSteps : Nat) : Nat :=
  runLoopTurns backend parse dispatch maxSteps [.userMessage query]

/-- The `max_steps=10` configured on the `CodeAgent` in `create_agent`
(curr_conv_agent_no_func.py, line 100). -/
def currencyAgentMaxSteps : Nat := 10

/-! ## Tool registries (spec §3 / §4.1; the `tools=[...]` lists) -/

/-- The declared interface of one tool: its name and the first line of its
docstring (the description shown to the model). -/
structure ToolSpec where
  name : String
  description : String
deriving DecidableEq, Repr

/-- `web_search` (agent1-search.py, lines 10-18). -/
def web_search_tool : ToolSpec :=
  { name := "web_search",
    description := "Search the web for up-to-date information." }

/-- `fetch_live_rate` as a tool (curr_conv_agent_no_func.py, line 13). -/
def fetch_live_rate_tool : ToolSpec :=
  { name := "fetch_live_rate",
    description := "Retrieve a live exchange rate from a public exchange rate API." }

/-- `calculate` as a tool (curr_conv_agent_no_func.py, line 54). -/
def calculate_tool : ToolSpec :=
  { name := "calculate",
    description := "Evaluate a basic arithmetic expression safely." }

/-- `get_weather` (smolaagents.py, line 15). -/
def get_weather_tool : ToolSpec :=
  { name := "get_weather",
    description := "Get the current weather for a city." }

/-- `get_temperature` (smolaagents.py, line 35). -/
def get_temperature_tool : ToolSpec :=
  { name := "get_temperature",
    description := "Get the temperature for a city." }

/-- `get_humidity` (smolaagents.py, line 49). -/
def get_humidity_tool : ToolSpec :=
  { name := "get_humidity",
    description := "Get the humidity level for a city." }

/-- The search agent's registry: `tools=[search_tool]`
(agent1-search.py, line 22). -/
def searchAgentRegistry : List ToolSpec := [web_search_tool]

/-- The currency agent's registry: `tools=[fetch_live_rate, calculate]`
(curr_conv_agent_no_func.py, line 98). -/
def currencyAgentRegistry : List ToolSpec := [fetch_live_rate_tool, calculate_tool]

/-- The weather agent's registry:
`tools=[get_weather, get_temperature, get_humidity]`
(smolaagents.py, line 80). -/
def weatherAgentRegistry : List ToolSpec :=
  [get_weather_tool, get_temperature_tool, get_humidity_tool]

/-! ## The search-agent CLI loop (agent1-search.py, lines 29-41) -/

/-- One observable event of the CLI loop: a printed answer, a printed
error message, or the goodbye on exit. -/
inductive CliEvent where
  | answer (text : String)
  | errorMsg (text : String)
  | goodbye
deriving DecidableEq, Repr

/-- The `while True:` loop of agent1-search.py, run on a finite list of
console inputs (the real loop blocks on `input()`; a finite input list
models a console session).  Each input is stripped; `exit`
(case-insensitively) prints the goodbye and breaks; otherwise `agent.run`
(modelled as `agentRun`, an arbitrary function returning an answer or the
message of any raised exception) is called and its answer or error message
is printed, and the loop continues. -/
def searchCliLoop (agentRun : String → Except String String) :
    List String → List CliEvent
  | [] => []
  | raw :: rest =>
    let question := pyStrip raw
    if pyLower question = "exit" then [.goodbye]
    else
      match agentRun question with
      | .ok answer => .answer answer :: searchCliLoop agentRun rest
      | .error e => .errorMsg ("Error: " ++ e) :: searchCliLoop agentRun rest

/-! ## LLM backend configurations (spec §6) -/

/-- The keyword arguments explicitly given at an LLM-constructor call
site: each field is `some _` exactly when the script passes that argument
with a non-`None` value. -/
structure LLMConfig where
  modelId : Option String
  apiBase : Option String
  temperature : Option Rat
deriving DecidableEq, Repr

/-- The `LiteLLMModel(model_id=..., api_base=..., temperature=0.0)` of
`create_agent` (curr_conv_agent_no_func.py, lines 91-95); `api_base`
passes the caller's argument through, whose default is `None`. -/
def currencyLLMConfig (model_id : String) (api_base : Option String) : LLMConfig :=
  { modelId := some model_id, apiBase := api_base, temperature := some 0 }

/-- `create_agent()`'s defaults: `model_id="gpt-4o-mini"`, `api_base=None`. -/
def currencyLLMConfigDefault : LLMConfig := currencyLLMConfig "gpt-4o-mini" none

/-- The `LiteLLMModel(model_id=MODEL, api_base="http://localhost:11434")`
of `create_weather_agent` (smolaagents.py, lines 73-76): no temperature
argument. -/
def weatherLLMConfig : LLMConfig :=
  { modelId := some "ollama/llama3.2:latest",
    apiBase := some "http://localhost:11434",
    temperature := none }

/-- The `OllamaLLM(model="llama3.2", temperature=0)` of agent1-search.py,
line 7: no endpoint/base-URL argument. -/
def searchLLMConfig : LLMConfig :=
  { modelId := some "llama3.2", apiBase := none, temperature := some 0 }

/-- A configuration includes all three of: model identifier,
endpoint/base-URL, and temperature. -/
def configHasBackendTriple (c : LLMConfig) : Bool :=
  c.modelId.isSome && c.apiBase.isSome && c.temperature.isSome

/-! ## Weather tools (smolaagents.py) -/

/-- Python `random.randint(a, b)`: an integer `N` with `a <= N <= b`,
modelled as a function of the generator seed. -/
def randint (a b : Int) (seed : Nat) : Int :=
  a + (seed : Int) % (b - a + 1)

/-- `get_temperature(city)`: `random.randint(-10, 40)`. -/
def get_temperature (city : String) (seed : Nat) : Int :=
  randint (-10) 40 seed

/-- `get_humidity(city)`: `random.randint(30, 90)`. -/
def get_humidity (city : String) (seed : Nat) : Int :=
  randint 30 90 seed

/-! ## The weather demo's query selection (smolaagents.py, lines 101-122) -/

/-- The `queries` example list of `main`. -/
def weatherQueries : List String :=
  ["What\x27s the weather like in Paris?",
   "Tell me about the weather in Tokyo and its humidity",
   "Is it hot in New York today?",
   "Compare the temperature in London and Berlin"]

/-- The query `main` passes to `agent.run`:
`user_query = input(...).strip()`, replaced by `queries[0]` when empty. -/
def effectiveWeatherQuery (raw : String) : String :=
  let user_query := pyStrip raw
  if user_query = "" then weatherQueries.getD 0 "" else user_query

/-! ## Helper lemmas -/

/-- The URL loop yields nothing exactly when every URL's attempt yields
nothing. -/
theorem fetchAttempts_eq_none_iff (world : HttpWorld) (base target : String)
    (urls : List String) :
    fetchAttempts world base target urls = none ↔
      ∀ u ∈ urls, tryFetchUrl world base target u = none := by
  induction urls with
  | nil => simp [fetchAttempts]
  | cons u rest ih =>
    cases h : tryFetchUrl world base target u with
    | some q => simp [fetchAttempts, h]
    | none => simp [fetchAttempts, h, ih]

/-- The URL loop yields a rate exactly when some URL's attempt does. -/
theorem fetchAttempts_isSome_iff (world : HttpWorld) (base target : String)
    (urls : List String) :
    (fetchAttempts world base target urls).isSome ↔
      ∃ u ∈ urls, (tryFetchUrl world base target u).isSome := by
  induction urls with
  | nil => simp [fetchAttempts]
  | cons u rest ih =>
    cases h : tryFetchUrl world base target u with
    | some q => simp [fetchAttempts, h]
    | none => simp [fetchAttempts, h, ih]

/-- Every request record produced by the URL loop carries `timeout = 5`. -/
theorem requestsIssuedAux_timeout (world : HttpWorld) (base target : String)
    (urls : List String) :
    ∀ r ∈ requestsIssuedAux world base target urls, r.timeout = 5 := by
  induction urls with
  | nil => simp [requestsIssuedAux]
  | cons u rest ih =>
    intro r hr
    rw [requestsIssuedAux] at hr
    rcases List.mem_cons.mp hr with h | h
    · rw [h]
    · cases htry : tryFetchUrl world base target u with
      | some q => rw [htry] at h; simp at h
      | none => rw [htry] at h; exact ih r h

/-- Turn counting is bounded by the step budget. -/
theorem runLoopTurns_le (backend : List TranscriptEntry → String)
    (parse : String → ParsedStep)
    (dispatch : String → ToolArgs → Except String String) :
    ∀ (n : Nat) (t : List TranscriptEntry),
      runLoopTurns backend parse dispatch n t ≤ n := by
  intro n
  induction n with
  | zero => intro t; simp [runLoopTurns]
  | succ n ih =>
    intro t
    rw [runLoopTurns]
    split
    · omega
    · omega
    · rename_i name args _
      have := ih (t ++ [.modelUtterance (backend t) (some (name, args)),
        .toolCall name args, .toolResult name (dispatch name args)])
      omega

/-- Under a backend whose every output parses as a tool call, the loop
consumes its whole budget and fails with `StepBudgetExceededError`. -/
theorem runLoop_budget_exhausted (backend : List TranscriptEntry → String)
    (parse : String → ParsedStep)
    (dispatch : String → ToolArgs → Except String String)
    (h : ∀ t, ∃ name args, parse (backend t) = .toolCallReq name args) :
    ∀ (n : Nat) (t : List TranscriptEntry),
      (∃ t', runLoop backend parse dispatch n t = .failed (.stepBudgetExceeded t')) ∧
      runLoopTurns backend parse dispatch n t = n := by
  intro n
  induction n with
  | zero => intro t; exact ⟨⟨t, rfl⟩, rfl⟩
  | succ n ih =>
    intro t
    obtain ⟨name, args, hp⟩ := h t
    have ihx := ih (t ++ [.modelUtterance (backend t) (some (name, args)),
      .toolCall name args, .toolResult name (dispatch name args)])
    rw [runLoop, runLoopTurns, hp]
    refine ⟨ihx.1, ?_⟩
    show 1 + runLoopTurns backend parse dispatch n
      (t ++ [.modelUtterance (backend t) (some (name, args)),
        .toolCall name args, .toolResult name (dispatch name args)]) = n + 1
    rw [ihx.2, Nat.add_comm]

/-! ## Stub worlds and stubs used by the witnesses -/

/-- A world in which every URL answers with a valid usd→eur rate table. -/
def stubRateWorld : HttpWorld := fun _ =>
  .resp { statusOk := true,
          body := .ok (.obj [("usd", .obj [("eur", .num (9/10))])]) }

/-- A world in which every request times out. -/
def stubTimeoutWorld : HttpWorld := fun _ =>
  .raised (.exc "Timeout" "request timed out")

/-- A world in which the first endpoint times out and the fallback
endpoint answers with a valid usd→eur rate table. -/
def stubFlakyWorld : HttpWorld := fun url =>
  if url = jsdelivrUrl "usd" then .raised (.exc "Timeout" "request timed out")
  else .resp { statusOk := true,
               body := .ok (.obj [("usd", .obj [("eur", .num (9/10))])]) }

/-- A stub `agent.run`: raises on the query "boom", answers otherwise. -/
def stubAgentRun : String → Except String String := fun q =>
  if q = "boom" then .error "kaboom" else .ok ("answer to " ++ q)

/-- A backend stub that always emits the same raw text. -/
def stubBackend : List TranscriptEntry → String := fun _ => "Action: calculate"

/-- A parser stub that reads every raw output as a `calculate` tool call. -/
def stubParse : String → ParsedStep := fun _ =>
  .toolCallReq "calculate" [("expression", "1+1")]

/-- A dispatcher stub that always succeeds. -/
def stubDispatch : String → ToolArgs → Except String String := fun _ _ => .ok "2"

/-! ## Claims -/

/-- C1: the reasoning loop is bounded: `run` performs at most `maxSteps`
model turns (configured as `max_steps=10` on the currency agent at
construction), and a backend whose every output parses as another tool
call makes `run` consume exactly `maxSteps` turns and fail with
`StepBudgetExceededError` instead of looping forever. -/
theorem currency_run_step_budget (backend : List TranscriptEntry → String)
    (parse : String → ParsedStep)
    (dispatch : String → ToolArgs → Except String String) (query : String)
    (h : ∀ t, ∃ name args, parse (backend t) = .toolCallReq name args) :
    currencyAgentMaxSteps = 10 ∧
    (∀ (b : List TranscriptEntry → String) (p : String → ParsedStep)
        (d : String → ToolArgs → Except String String) (q : String) (n : Nat),
      runTurns b p d q n ≤ n) ∧
    runTurns backend parse dispatch query currencyAgentMaxSteps = currencyAgentMaxSteps ∧
    (∃ t', run backend parse dispatch query currencyAgentMaxSteps =
      .failed (.stepBudgetExceeded t')) := by
  refine ⟨rfl, fun b p d q n => runLoopTurns_le b p d n _, ?_, ?_⟩
  · exact (runLoop_budget_exhausted backend parse dispatch h currencyAgentMaxSteps _).2
  · exact (runLoop_budget_exhausted backend parse dispatch h currencyAgentMaxSteps _).1

/-- C1 witness: the always-tool-call stub backend exhausts the budget. -/
theorem currency_run_step_budget_witness :
    (∀ t, ∃ name args, stubParse (stubBackend t) = .toolCallReq name args) ∧
    runTurns stubBackend stubParse stubDispatch "Convert 100 USD to EUR"
      currencyAgentMaxSteps = currencyAgentMaxSteps ∧
    (∃ t', run stubBackend stubParse stubDispatch "Convert 100 USD to EUR"
      currencyAgentMaxSteps = .failed (.stepBudgetExceeded t')) :=
  ⟨fun _ => ⟨"calculate", [("expression", "1+1")], rfl⟩,
   (currency_run_step_budget stubBackend stubParse stubDispatch
      "Convert 100 USD to EUR"
      (fun _ => ⟨"calculate", [("expression", "1+1")], rfl⟩)).2.2.1,
   (currency_run_step_budget stubBackend stubParse stubDispatch
      "Convert 100 USD to EUR"
      (fun _ => ⟨"calculate", [("expression", "1+1")], rfl⟩)).2.2.2⟩

/-- C2: for every expression and every behaviour of the `eval` builtin,
`calculate` either returns the evaluated result as a float or fails with a
`RuntimeError` wrapping the underlying cause; the globals passed to `eval`
restrict it only by emptying `__builtins__`, and no error other than
`RuntimeError` escapes. -/
theorem calculate_total (evalFn : Evaluator) (expression : String) :
    restrictedGlobals = [("__builtins__", Json.obj [])] ∧
    ((∃ q, calculate evalFn expression = .ok q) ∨
      (∃ cause, calculate evalFn expression =
        .error (.runtimeError ("Calculation error: " ++ cause)))) := by
  refine ⟨rfl, ?_⟩
  cases h : evalFn expression restrictedGlobals with
  | raised e => exact Or.inr ⟨excMessage e, by simp [calculate, h]⟩
  | value v =>
    cases hf : pyFloat v with
    | error e => exact Or.inr ⟨excMessage e, by simp [calculate, h, hf]⟩
    | ok q => exact Or.inl ⟨q, by simp [calculate, h, hf]⟩

/-- C3: for every pair of currency codes and every HTTP world,
`fetch_live_rate` returns a float exactly when some configured endpoint's
attempt yields a rate for the target currency, and otherwise fails with a
`RuntimeError` whose message names both currencies as given; no other
fault escapes. -/
theorem fetch_live_rate_total (world : HttpWorld)
    (from_currency to_currency : String) :
    ((∃ u ∈ rateUrls (pyLower from_currency),
        (tryFetchUrl world (pyLower from_currency) (pyLower to_currency) u).isSome) ↔
      ∃ q, fetch_live_rate world from_currency to_currency = .ok q) ∧
    ((∃ q, fetch_live_rate world from_currency to_currency = .ok q) ∨
      fetch_live_rate world from_currency to_currency =
        .error (.runtimeError ("Failed to fetch exchange rate from "
          ++ from_currency ++ " to " ++ to_currency))) := by
  constructor
  · rw [← fetchAttempts_isSome_iff]
    unfold fetch_live_rate
    cases h : fetchAttempts world (pyLower from_currency) (pyLower to_currency)
        (rateUrls (pyLower from_currency)) with
    | some q => simp [h]
    | none => simp [h]
  · unfold fetch_live_rate
    cases h : fetchAttempts world (pyLower from_currency) (pyLower to_currency)
        (rateUrls (pyLower from_currency)) with
    | some q => exact Or.inl ⟨q, by simp [h]⟩
    | none => exact Or.inr (by simp [h])

/-- C4: every HTTP request `fetch_live_rate` issues carries the timeout
supplied at its `requests.get` call site (5 seconds); a first endpoint
whose request raises (e.g. on timeout expiry) is recovered by trying the
next endpoint, and the `RuntimeError` is raised only when every endpoint's
attempt fails — a timeout never surfaces as an uncaught fault. -/
theorem fetch_live_rate_timeout_bounded (world : HttpWorld)
    (from_currency to_currency : String) :
    (∀ r ∈ requestsIssued world from_currency to_currency, r.timeout = 5) ∧
    (∀ e, world (jsdelivrUrl (pyLower from_currency)) = .raised e →
      ∀ q, tryFetchUrl world (pyLower from_currency) (pyLower to_currency)
          (pagesUrl (pyLower from_currency)) = some q →
        fetch_live_rate world from_currency to_currency = .ok q) ∧
    (∀ e, fetch_live_rate world from_currency to_currency = .error e →
      ∀ u ∈ rateUrls (pyLower from_currency),
        tryFetchUrl world (pyLower from_currency) (pyLower to_currency) u = none) := by
  refine ⟨requestsIssuedAux_timeout world _ _ _, ?_, ?_⟩
  · intro e he q hq
    have h1 : tryFetchUrl world (pyLower from_currency) (pyLower to_currency)
        (jsdelivrUrl (pyLower from_currency)) = none := by
      unfold tryFetchUrl; rw [he]
    unfold fetch_live_rate
    simp [rateUrls, fetchAttempts, h1, hq]
  · intro e he
    cases h : fetchAttempts world (pyLower from_currency) (pyLower to_currency)
        (rateUrls (pyLower from_currency)) with
    | some q =>
      exfalso
      have hok : fetch_live_rate world from_currency to_currency = .ok q := by
        unfold fetch_live_rate
        simp [h]
      rw [hok] at he
      exact Except.noConfusion he
    | none => exact (fetchAttempts_eq_none_iff world _ _ _).mp h

/-- C4 witness: in a world where the first endpoint times out and the
fallback answers, the run issues only 5-second-bounded requests and still
returns the rate. -/
theorem fetch_live_rate_timeout_bounded_witness :
    stubFlakyWorld (jsdelivrUrl (pyLower "USD")) =
      .raised (.exc "Timeout" "request timed out") ∧
    tryFetchUrl stubFlakyWorld (pyLower "USD") (pyLower "EUR")
      (pagesUrl (pyLower "USD")) = some (9/10) ∧
    (∀ r ∈ requestsIssued stubFlakyWorld "USD" "EUR", r.timeout = 5) ∧
    fetch_live_rate stubFlakyWorld "USD" "EUR" = .ok (9/10) :=
  ⟨rfl, rfl,
   (fetch_live_rate_timeout_bounded stubFlakyWorld "USD" "EUR").1,
   (fetch_live_rate_timeout_bounded stubFlakyWorld "USD" "EUR").2.1
     (.exc "Timeout" "request timed out") rfl (9/10) rfl⟩

/-- C5: each script's tool registry is the fixed list established at
construction — `web_search` for the search agent, `fetch_live_rate` and
`calculate` for the currency agent, `get_weather`, `get_temperature` and
`get_humidity` for the weather agent — and its tool names are unique. -/
theorem agentRegistries_fixed_unique :
    searchAgentRegistry.map ToolSpec.name = ["web_search"] ∧
    currencyAgentRegistry.map ToolSpec.name = ["fetch_live_rate", "calculate"] ∧
    weatherAgentRegistry.map ToolSpec.name =
      ["get_weather", "get_temperature", "get_humidity"] ∧
    (searchAgentRegistry.map ToolSpec.name).Nodup ∧
    (currencyAgentRegistry.map ToolSpec.name).Nodup ∧
    (weatherAgentRegistry.map ToolSpec.name).Nodup := by
  refine ⟨rfl, rfl, rfl, ?_, ?_, ?_⟩ <;> decide

/-- C6: one step of the search-agent CLI loop: an input stripping and
lowercasing to "exit" ends the loop; any other input calls `agent.run` on
the stripped text, prints the answer on success or an error message when
it raises, and in both cases the loop continues with the remaining
inputs. -/
theorem searchCliLoop_step (agentRun : String → Except String String)
    (raw : String) (rest : List String) :
    (pyLower (pyStrip raw) = "exit" →
      searchCliLoop agentRun (raw :: rest) = [.goodbye]) ∧
    (pyLower (pyStrip raw) ≠ "exit" →
      (∀ a, agentRun (pyStrip raw) = .ok a →
        searchCliLoop agentRun (raw :: rest) =
          .answer a :: searchCliLoop agentRun rest) ∧
      (∀ e, agentRun (pyStrip raw) = .error e →
        searchCliLoop agentRun (raw :: rest) =
          .errorMsg ("Error: " ++ e) :: searchCliLoop agentRun rest)) := by
  constructor
  · intro h
    simp only [searchCliLoop, h, if_pos]
  · intro h
    refine ⟨fun a ha => ?_, fun e he => ?_⟩
    · simp only [searchCliLoop, h, if_neg, ha, not_false_iff]
    · simp only [searchCliLoop, h, if_neg, he, not_false_iff]

/-- C6 witness: a session answering one query, recovering from one raised
error, and terminating on " Exit ". -/
theorem searchCliLoop_step_witness :
    searchCliLoop stubAgentRun [" Exit ", "x"] = [.goodbye] ∧
    searchCliLoop stubAgentRun ["hello", "q2"] =
      .answer "answer to hello" :: searchCliLoop stubAgentRun ["q2"] ∧
    searchCliLoop stubAgentRun ["boom"] =
      .errorMsg "Error: kaboom" :: searchCliLoop stubAgentRun [] :=
  ⟨(searchCliLoop_step stubAgentRun " Exit " ["x"]).1 (by decide),
   ((searchCliLoop_step stubAgentRun "hello" ["q2"]).2 (by decide)).1
     "answer to hello" rfl,
   ((searchCliLoop_step stubAgentRun "boom" []).2 (by decide)).2
     "kaboom" rfl⟩

/-- C7 counterexample: the claim that every backend configuration includes
model identifier, endpoint and temperature is false on the code: the
weather agent's configuration has no temperature, the search agent's has
no endpoint, and the default currency configuration has `api_base=None`. -/
theorem llmConfig_triple_counterexample :
    configHasBackendTriple weatherLLMConfig = false ∧
    configHasBackendTriple searchLLMConfig = false ∧
    configHasBackendTriple currencyLLMConfigDefault = false := by
  decide

/-- C7 (amended): every backend configuration includes a model identifier;
the currency agent's additionally sets `temperature=0.0` and passes the
caller's `api_base` through (default `None`); the weather agent's sets an
endpoint but no temperature; the search agent's sets `temperature=0` but
no endpoint. -/
theorem llmConfig_fields (m u : String) :
    weatherLLMConfig.modelId = some "ollama/llama3.2:latest" ∧
    searchLLMConfig.modelId = some "llama3.2" ∧
    (currencyLLMConfig m none).modelId = some m ∧
    currencyLLMConfigDefault.modelId = some "gpt-4o-mini" ∧
    (currencyLLMConfig m none).temperature = some 0 ∧
    (currencyLLMConfig m (some u)).apiBase = some u ∧
    currencyLLMConfigDefault.apiBase = none ∧
    weatherLLMConfig.apiBase = some "http://localhost:11434" ∧
    weatherLLMConfig.temperature = none ∧
    searchLLMConfig.temperature = some 0 ∧
    searchLLMConfig.apiBase = none := by
  exact ⟨rfl, rfl, rfl, rfl, rfl, rfl, rfl, rfl, rfl, rfl, rfl⟩

/-- C8: `fetch_live_rate` is case-insensitive in both currency codes: two
calls whose codes agree after lowercasing issue the same HTTP requests and
return the same rates (only the error message preserves the original
casing). -/
theorem fetch_live_rate_case_insensitive (world : HttpWorld)
    (f1 t1 f2 t2 : String)
    (hf : pyLower f1 = pyLower f2) (ht : pyLower t1 = pyLower t2) :
    requestsIssued world f1 t1 = requestsIssued world f2 t2 ∧
    ∀ q, fetch_live_rate world f1 t1 = .ok q ↔
      fetch_live_rate world f2 t2 = .ok q := by
  unfold requestsIssued fetch_live_rate
  rw [hf, ht]
  refine ⟨rfl, fun q => ?_⟩
  cases h : fetchAttempts world (pyLower f2) (pyLower t2)
      (rateUrls (pyLower f2)) with
  | some q' => simp [h]
  | none => simp [h]

/-- C8 witness: "USD"/"EUR" and "usd"/"Eur" issue identical requests. -/
theorem fetch_live_rate_case_insensitive_witness :
    pyLower "USD" = pyLower "usd" ∧ pyLower "EUR" = pyLower "Eur" ∧
    requestsIssued stubRateWorld "USD" "EUR" =
      requestsIssued stubRateWorld "usd" "Eur" :=
  ⟨by decide, by decide,
   (fetch_live_rate_case_insensitive stubRateWorld "USD" "EUR" "usd" "Eur"
      (by decide) (by decide)).1⟩

/-- C9: for every city and every random draw, `get_humidity` returns an
integer between 30 and 90 inclusive, hence strictly inside the 0-100
percentage range its docstring promises. -/
theorem get_humidity_range (city : String) (seed : Nat) :
    30 ≤ get_humidity city seed ∧ get_humidity city seed ≤ 90 ∧
    0 < get_humidity city seed ∧ get_humidity city seed < 100 := by
  unfold get_humidity randint
  omega

/-- C10: the weather demo's effective query is never empty: whitespace-only
input is replaced by the first example query, so `agent.run` is always
invoked with a non-empty query. -/
theorem effectiveWeatherQuery_nonempty (raw : String) :
    effectiveWeatherQuery raw ≠ "" ∧
    (pyStrip raw = "" →
      effectiveWeatherQuery raw = "What\x27s the weather like in Paris?") := by
  unfold effectiveWeatherQuery
  by_cases h : pyStrip raw = ""
  · rw [if_pos h]
    exact ⟨by decide, fun _ => rfl⟩
  · rw [if_neg h]
    exact ⟨h, fun hc => absurd hc h⟩

/-- C10 witness: whitespace-only input falls back to the Paris query. -/
theorem effectiveWeatherQuery_nonempty_witness :
    pyStrip "   " = "" ∧
    effectiveWeatherQuery "   " ≠ "" ∧
    effectiveWeatherQuery "   " = "What\x27s the weather like in Paris?" :=
  ⟨by decide,
   (effectiveWeatherQuery_nonempty "   ").1,
   (effectiveWeatherQuery_nonempty "   ").2 (by decide)⟩
